import Mathlib

/-!
Verification of the off-screen globe renderer of mullvad-slint
(`src/map.rs`): projection and camera math, change-detection caching,
texture (re)creation, geometry loading, and the readback repacking
contract.  Machine `f32` values are modelled as real numbers; `u32`
sizes as naturals; the values compared for change detection (size,
coordinates, zoom) as rationals, so that value equality is decidable.
-/

namespace MullvadMap

/-- Matrices of size 4×4 over the reals, the model of `glam::Mat4`.  glam stores
matrices column-major, but as a linear map a `glam` product `a * b`
is the ordinary matrix product, which is what we use. -/
abbrev Mat4 := Matrix (Fin 4) (Fin 4) ℝ

noncomputable section RealMath

/-- Embedding of `glam::Affine3A::from_translation(Vec3::new(x, y, z))`,
viewed as a `Mat4` (the form in which `Map::render` consumes it). -/
def translateMat (x y z : ℝ) : Mat4 :=
  !![1, 0, 0, x;
     0, 1, 0, y;
     0, 0, 1, z;
     0, 0, 0, 1]

/-- Embedding of `glam::Affine3A::from_rotation_x(a)` viewed as a `Mat4`:
rotation about the x axis by `a` radians. -/
def rotXMat (a : ℝ) : Mat4 :=
  !![1, 0,          0,           0;
     0, Real.cos a, -Real.sin a, 0;
     0, Real.sin a, Real.cos a,  0;
     0, 0,          0,           1]

/-- Embedding of `glam::Affine3A::from_rotation_y(a)` viewed as a `Mat4`:
rotation about the y axis by `a` radians. -/
def rotYMat (a : ℝ) : Mat4 :=
  !![Real.cos a,  0, Real.sin a, 0;
     0,           1, 0,          0;
     -Real.sin a, 0, Real.cos a, 0;
     0,           0, 0,          1]

/-- Embedding of `glam::Affine3A::from_scale(Vec3::splat(c))` viewed as a
`Mat4`: a uniform scale of the three spatial axes, leaving the
homogeneous coordinate fixed. -/
def scaleMat (c : ℝ) : Mat4 := Matrix.diagonal ![c, c, c, 1]

/-- Embedding of `glam::Mat4::perspective_rh(fovy, aspect, z_near, z_far)`:
with `h = cos (fovy/2) / sin (fovy/2)`, `w = h / aspect` and
`r = z_far / (z_near - z_far)`, the columns are
`(w,0,0,0)`, `(0,h,0,0)`, `(0,0,r,-1)`, `(0,0,r*z_near,0)`. -/
def perspectiveRh (fovy aspect zNear zFar : ℝ) : Mat4 :=
  let h := Real.cos (0.5 * fovy) / Real.sin (0.5 * fovy)
  let w := h / aspect
  let r := zFar / (zNear - zFar)
  !![w, 0, 0,  0;
     0, h, 0,  0;
     0, 0, r,  r * zNear;
     0, 0, -1, 0]

/-- Embedding of `projection_matrix` (map.rs 431–441): vertical field of
view of 70 degrees, aspect `width / height`, near plane 0.1, far
plane 10.0, right-handed. -/
def projection_matrix (width height : ℝ) : Mat4 :=
  let angle_of_view : ℝ := 70.0
  let field_of_view : ℝ := (angle_of_view / 180.0) * Real.pi
  let aspect := width / height
  let z_near : ℝ := 0.1
  let z_far : ℝ := 10.0
  perspectiveRh field_of_view aspect z_near z_far

/-- Embedding of `coordinates_to_theta_phi` (map.rs 461–466): takes
`(latitude, longitude)` in degrees and returns `(theta, phi)` in
radians, with `phi = latitude * (pi/180)` and
`theta = longitude * (pi/180)`. -/
def coordinates_to_theta_phi (coordinate : ℝ × ℝ) : ℝ × ℝ :=
  let latitude := coordinate.1
  let longitude := coordinate.2
  let phi := latitude * (Real.pi / 180)
  let theta := longitude * (Real.pi / 180)
  (theta, phi)

/-- Embedding of `model_view` (map.rs 443–458): starting from the
identity, multiply on the right by the translation
`(0, offset_y, -zoom)` (with `offset_y = 0.0` in the source), the
rotation about x by `phi`, and the rotation about y by `-theta`,
mirroring the three `view_matrix *= ...` statements. -/
def model_view (zoom : ℝ) (coords : ℝ × ℝ) : Mat4 :=
  let offset_y : ℝ := 0.0
  let tp := coordinates_to_theta_phi coords
  (((1 : Mat4) * translateMat 0 offset_y (-zoom)) * rotXMat tp.2) * rotYMat (-tp.1)

/-- Embedding of `LAND_COLOR` (map.rs 7). -/
def LAND_COLOR : Fin 4 → ℝ := ![0.16, 0.302, 0.45, 1.0]

/-- Embedding of `OCEAN_COLOR` (map.rs 8). -/
def OCEAN_COLOR : Fin 4 → ℝ := ![0.098, 0.18, 0.271, 1.0]

/-- Embedding of `CONTOUR_COLOR` (map.rs 10), defined in the source as
`OCEAN_COLOR`. -/
def CONTOUR_COLOR : Fin 4 → ℝ := OCEAN_COLOR

/-- Embedding of the `Uniforms` struct (map.rs 15–20); the `_padding`
field carries no information and is omitted. -/
structure Uniforms where
  projection : Mat4
  model_view : Mat4
  color : Fin 4 → ℝ

/-- The pair of uniform values (land, contour) computed inside
`Map::render` from the current input (map.rs 334–350): a common
projection and model-view are computed, the land model-view is the
common one multiplied by a uniform scale of 0.9999, and each mesh gets
its color constant. -/
def renderUniforms (size : ℕ × ℕ) (coords : ℚ × ℚ) (zoom : ℚ) : Uniforms × Uniforms :=
  let projection := projection_matrix (size.1 : ℝ) (size.2 : ℝ)
  let mv := model_view (zoom : ℝ) ((coords.1 : ℝ), (coords.2 : ℝ))
  let land_uniforms : Uniforms :=
    { projection := projection
      model_view := mv * scaleMat 0.9999
      color := LAND_COLOR }
  let contour_uniforms : Uniforms :=
    { projection := projection
      model_view := mv
      color := CONTOUR_COLOR }
  (land_uniforms, contour_uniforms)

end RealMath

/-- Embedding of `MapInput` (map.rs 42–47): physical size in pixels,
`(latitude, longitude)` coordinates in degrees, and zoom.  The scalar
fields are modelled as rationals so that the value equality used by
the change detector is decidable. -/
structure MapInput where
  size : ℕ × ℕ
  coords : ℚ × ℚ
  zoom : ℚ
deriving DecidableEq

/-- A GPU texture handle as far as this embedding can observe it: its
dimensions.  `wgpu::Texture` contents live on the GPU and are not
readable here. -/
structure Texture where
  width : ℕ
  height : ℕ
deriving DecidableEq

/-- The mutable state of `Map` (map.rs 22–40) that the render logic
reads or writes: the cached input, the color and depth textures, the
stored texture size, and an instrumentation counter of
`queue.submit` calls (GPU draw submissions). -/
structure MapState where
  last_input : Option MapInput
  texture : Texture
  depth_texture : Texture
  texture_size : ℕ × ℕ
  submissions : ℕ
deriving DecidableEq

/-- The externally observable effects of one `Map::render` call:
the returned value (`some` texture, or `none` for "unchanged") and
the uniform-buffer writes issued via `queue.write_buffer`
(`none` when no write happened, `some (land, contour)` with the
written values otherwise). -/
structure RenderOutput where
  result : Option Texture
  writes : Option (Uniforms × Uniforms)

/-- Embedding of `Map::create_textures` (map.rs 273–312): both
dimensions are clamped below by 1 and the color and depth textures
are created at the clamped size. -/
def Map.create_textures (width height : ℕ) : Texture × Texture :=
  let width := max width 1
  let height := max height 1
  (⟨width, height⟩, ⟨width, height⟩)

/-- Embedding of the state set up by `Map::new` (map.rs 50–271): no
cached input, textures created by `create_textures` at the requested
size, and `texture_size` recording the requested (unclamped) size. -/
def Map.new (size : ℕ × ℕ) : MapState :=
  let tex := Map.create_textures size.1 size.2
  { last_input := none
    texture := tex.1
    depth_texture := tex.2
    texture_size := (size.1, size.2)
    submissions := 0 }

/-- Embedding of `Map::render` (map.rs 314–428).  If the input equals
the cached `last_input`, return `None` with no effect.  Otherwise
clamp the input size, recreate the textures when the clamped size
differs from `texture_size`, cache the input, write both uniform
buffers with freshly computed values, submit one draw command buffer,
and return the (possibly recreated) color texture. -/
noncomputable def Map.render (s : MapState) (input : MapInput) : RenderOutput × MapState :=
  if s.last_input = some input then
    ({ result := none, writes := none }, s)
  else
    let new_size := (max input.size.1 1, max input.size.2 1)
    let s :=
      if s.texture_size ≠ new_size then
        let tex := Map.create_textures new_size.1 new_size.2
        { s with texture := tex.1, depth_texture := tex.2, texture_size := new_size }
      else s
    let s := { s with last_input := some input }
    let uniforms := renderUniforms input.size input.coords input.zoom
    let s := { s with submissions := s.submissions + 1 }
    ({ result := some s.texture, writes := some uniforms }, s)

/-- Outcome of a fallible load step: a value, or a process abort by
panic (the outcome of a failed `bytemuck::cast_slice` or of an
out-of-range slice index in Rust). -/
inductive LoadResult (α : Type) where
  | ok (val : α)
  | panicked

/-- Split a list into consecutive chunks of `n` elements (the last chunk
may be short); returns `[]` when `n = 0`. -/
def chunksOf : ℕ → List α → List (List α)
  | 0, _ => []
  | _ + 1, [] => []
  | n + 1, a :: l => ((a :: l).take (n + 1)) :: chunksOf (n + 1) ((a :: l).drop (n + 1))
termination_by _ l => l.length
decreasing_by
  simp [List.length_drop]
  omega

/-- Decode one little-endian `u32` from four bytes. -/
def leU32 : List ℕ → ℕ
  | [a, b, c, d] => a + 256 * (b + 256 * (c + 256 * d))
  | _ => 0

/-- Embedding of `bytemuck::cast_slice` applied to a byte blob with an
element type of `stride` bytes: it aborts the process by panic when
the blob length is not a whole multiple of the element size, and
otherwise reinterprets the bytes as consecutive `stride`-byte
elements.  (The additional runtime alignment requirement of
`bytemuck` is not observable in this embedding.) -/
def cast_slice (stride : ℕ) (bytes : List ℕ) : LoadResult (List (List ℕ)) :=
  if bytes.length % stride = 0 then .ok (chunksOf stride bytes) else .panicked

/-- Gather `pts[i]` for each index `i`, mirroring
`contour_indices.iter().map(|&i| land_points[i as usize])`
(map.rs 180–183); an out-of-range index is a panic. -/
def gather (pts : List (List ℕ)) : List ℕ → LoadResult (List (List ℕ))
  | [] => .ok []
  | i :: rest =>
    match pts[i]?, gather pts rest with
    | some p, .ok ps => .ok (p :: ps)
    | _, _ => .panicked

/-- Embedding of the geometry loading performed by `Map::new`
(map.rs 171–183): cast the land-position blob as 12-byte (`[f32; 3]`)
elements, the land-index and contour-index blobs as 4-byte (`u32`)
elements, then gather the contour points from the land positions.
Each failed cast (blob length not a whole multiple of the element
size) is an abort by panic — `Map::new` returns `Self`, not a
`Result`, so no error value can reach the caller.  Vertex bytes are
kept as raw 12-byte groups, since only their count and grouping are
observable to the claims. -/
def loadGeometry (landPointsBytes landIndicesBytes contourIndicesBytes : List ℕ) :
    LoadResult (List (List ℕ) × List ℕ × List (List ℕ)) :=
  match cast_slice 12 landPointsBytes with
  | .panicked => .panicked
  | .ok land_points =>
    match cast_slice 4 landIndicesBytes with
    | .panicked => .panicked
    | .ok land_index_words =>
      match cast_slice 4 contourIndicesBytes with
      | .panicked => .panicked
      | .ok contour_index_words =>
        let land_indices := land_index_words.map leU32
        let contour_indices := contour_index_words.map leU32
        match gather land_points contour_indices with
        | .panicked => .panicked
        | .ok contour_points => .ok (land_points, land_indices, contour_points)

/-- Modelled from the spec: the repository's `src/` contains no CPU
readback code (`Map::render` returns the `wgpu::Texture` handle
itself to the UI); spec §4.5 (`ReadbackPipeline`) and §6 describe
repacking the row-padded GPU readback buffer into a tightly packed
pixel buffer.  Following the spec's words: for each output row
`y` in `[0, height)`, copy `width * 4` bytes starting at offset
`y * aligned_row_stride` of the readback buffer, discarding the
per-row padding. -/
def repackRows (readback : List ℕ) (width height stride : ℕ) : List ℕ :=
  (List.range height).flatMap fun y => (readback.drop (y * stride)).take (width * 4)

/-- A concrete test input: a 4×5 viewport, coordinate (0, 0), zoom 1. -/
def input0 : MapInput := { size := (4, 5), coords := (0, 0), zoom := 1 }

/-- The input `input0` with only the zoom changed. -/
def inputZoom : MapInput := { size := (4, 5), coords := (0, 0), zoom := 2 }

/-- The input `input0` with the width set to zero. -/
def inputZeroW : MapInput := { size := (0, 5), coords := (0, 0), zoom := 1 }

/-- The state after one render of `input0` on a freshly constructed map. -/
noncomputable def state1 : MapState := (Map.render (Map.new (4, 5)) input0).2

/-- Texture bookkeeping relation established by `Map::new` and
preserved by `Map::render`: the color and depth textures have the
dimensions of `texture_size`, clamped below by 1. -/
def TexInv (s : MapState) : Prop :=
  s.texture = ⟨max s.texture_size.1 1, max s.texture_size.2 1⟩
  ∧ s.depth_texture = ⟨max s.texture_size.1 1, max s.texture_size.2 1⟩

/-! ## Helper lemmas -/

/-- Rotation about x by the angle 0 is the identity matrix. -/
theorem rotXMat_zero : rotXMat 0 = 1 := by
  ext i j
  fin_cases i <;> fin_cases j <;>
    simp [rotXMat, Matrix.one_apply, Matrix.vecHead, Matrix.vecTail]

/-- Rotation about y by the angle 0 is the identity matrix. -/
theorem rotYMat_zero : rotYMat 0 = 1 := by
  ext i j
  fin_cases i <;> fin_cases j <;>
    simp [rotYMat, Matrix.one_apply, Matrix.vecHead, Matrix.vecTail]

/-- Length of a `flatMap` over `List.range h` all of whose chunks have
length `k`. -/
theorem flatMap_range_length {α : Type} (k : ℕ) :
    ∀ (h : ℕ) (f : ℕ → List α), (∀ y, y < h → (f y).length = k) →
      ((List.range h).flatMap f).length = h * k := by
  intro h
  induction h with
  | zero => intro f _; simp
  | succ n ih =>
    intro f hf
    rw [List.range_succ_eq_map, List.flatMap_cons, List.length_append,
      List.flatMap_map,
      ih (fun y => f (y.succ)) (fun y hy => hf (y + 1) (by omega)),
      hf 0 (by omega)]
    ring

/-- Chunk extraction from a `flatMap` over `List.range h` all of whose
chunks have length `k`: dropping `y * k` elements and taking `k`
recovers the `y`-th chunk. -/
theorem flatMap_range_chunk {α : Type} (k : ℕ) :
    ∀ (h : ℕ) (f : ℕ → List α), (∀ y, y < h → (f y).length = k) →
      ∀ y, y < h → (((List.range h).flatMap f).drop (y * k)).take k = f y := by
  intro h
  induction h with
  | zero => intro f _ y hy; exact absurd hy (Nat.not_lt_zero y)
  | succ n ih =>
    intro f hf y hy
    rw [List.range_succ_eq_map, List.flatMap_cons, List.flatMap_map]
    cases y with
    | zero =>
      rw [Nat.zero_mul, List.drop_zero,
        List.take_append_of_le_length (hf 0 (by omega)).ge,
        List.take_of_length_le (hf 0 (by omega)).le]
    | succ y' =>
      have hlen : (y' + 1) * k = (f 0).length + y' * k := by
        rw [hf 0 (by omega)]; ring
      rw [hlen, List.drop_append]
      exact ih (fun y => f (y.succ)) (fun y hy2 => hf (y + 1) (by omega)) y' (by omega)

/-! ## Claims -/

/-- Claim C1: `Map.render s input` returns the "unchanged" marker
(`none`) exactly when `input` equals the cached `last_input` by value,
in which case the state (hence GPU work) is untouched and no uniform
write happens; on a first call (`last_input = none`) a render is
always performed; the number of draw submissions of a call is 1 when
a render is performed and 0 otherwise, so two calls in a row with the
same input submit exactly one draw in total, the second returning
"unchanged". -/
theorem C1_change_detection (s : MapState) (input : MapInput) :
    ((Map.render s input).1.result = none ↔ s.last_input = some input)
    ∧ (s.last_input = some input →
        (Map.render s input).2 = s ∧ (Map.render s input).1.writes = none)
    ∧ (s.last_input = none → (Map.render s input).1.result ≠ none)
    ∧ (Map.render s input).2.submissions
        = s.submissions + (if s.last_input = some input then 0 else 1)
    ∧ (s.last_input ≠ some input →
        (Map.render ((Map.render s input).2) input).1.result = none
        ∧ (Map.render ((Map.render s input).2) input).2.submissions
            = s.submissions + 1) := by
  by_cases h : s.last_input = some input
  · simp [Map.render, h]
  · by_cases h2 : s.texture_size = (max input.size.1 1, max input.size.2 1) <;>
      simp [Map.render, h, h2]

/-- Witness for C1 on a freshly constructed 4×5 map: the first call
renders, the second call with the same input returns "unchanged", and
the two calls together submit exactly one draw. -/
theorem C1_change_detection_witness :
    (Map.render (Map.new (4, 5)) input0).1.result ≠ none
    ∧ (Map.render ((Map.render (Map.new (4, 5)) input0).2) input0).1.result = none
    ∧ (Map.render ((Map.render (Map.new (4, 5)) input0).2) input0).2.submissions
        = 1 := by
  have h := C1_change_detection (Map.new (4, 5)) input0
  refine ⟨h.2.2.1 rfl, (h.2.2.2.2 (by decide)).1, ?_⟩
  have hs := (h.2.2.2.2 (by decide)).2
  simpa [Map.new] using hs

/-- Counterexample to claim C3: after a render at size (4, 5), a
request with zero width is not a skipped no-op — a frame is returned
and the textures and the stored size are recreated at the clamped
size (1, 5) rather than retained at the last valid size (4, 5). -/
theorem C3_counterexample :
    (Map.render state1 inputZeroW).1.result ≠ none
    ∧ (Map.render state1 inputZeroW).2.texture_size = (1, 5)
    ∧ (Map.render state1 inputZeroW).2.texture = ⟨1, 5⟩
    ∧ state1.texture_size = (4, 5) := by
  refine ⟨by decide, by decide, by decide, by decide⟩

/-- Amended claim C3: a resize request in which width or height is
zero is neither an error nor a no-op: `Map::render` clamps each
dimension below by 1, (re)creates the textures at the clamped size,
and performs the render; and no texture is ever created with a zero
dimension, since `create_textures` clamps both dimensions. -/
theorem C3_zero_size_clamped (s : MapState) (input : MapInput)
    (h : s.last_input ≠ some input) :
    (Map.render s input).1.result ≠ none
    ∧ (Map.render s input).2.texture_size
        = (max input.size.1 1, max input.size.2 1)
    ∧ ∀ w h' : ℕ,
        1 ≤ (Map.create_textures w h').1.width
        ∧ 1 ≤ (Map.create_textures w h').1.height
        ∧ 1 ≤ (Map.create_textures w h').2.width
        ∧ 1 ≤ (Map.create_textures w h').2.height := by
  refine ⟨?_, ?_, fun w h' => by simp [Map.create_textures]⟩ <;>
    by_cases h2 : s.texture_size = (max input.size.1 1, max input.size.2 1) <;>
      simp [Map.render, h, h2]

/-- Witness for the amended C3 at the zero-width input on the state
cached with `input0`. -/
theorem C3_zero_size_clamped_witness :
    (Map.render state1 inputZeroW).1.result ≠ none
    ∧ (Map.render state1 inputZeroW).2.texture_size
        = (max inputZeroW.size.1 1, max inputZeroW.size.2 1) := by
  have h := C3_zero_size_clamped state1 inputZeroW (by decide)
  exact ⟨h.1, h.2.1⟩

/-- Counterexample to claim C7: starting from the state cached with
`input0`, rendering `inputZoom` — which differs from `input0` only in
zoom, with the viewport size unchanged — still writes both uniform
buffers, including the projection, so uniform buffers are not written
only when the value they represent changed. -/
theorem C7_counterexample :
    inputZoom.size = input0.size
    ∧ (Map.render state1 inputZoom).1.result ≠ none
    ∧ (Map.render state1 inputZoom).1.writes
        = some (renderUniforms inputZoom.size inputZoom.coords inputZoom.zoom) := by
  refine ⟨by decide, by decide, ?_⟩
  have h : state1.last_input ≠ some inputZoom := by decide
  have h2 : state1.texture_size = (max inputZoom.size.1 1, max inputZoom.size.2 1) := by
    decide
  simp [Map.render, h, h2]

/-- Amended claim C7: uniform buffers are written exactly on the
non-skipped render calls — on every rendered frame both uniform
buffers are rewritten unconditionally with freshly computed
projection and model-view values, and on a skipped call no uniform
buffer is written. -/
theorem C7_uniform_writes_every_frame (s : MapState) (input : MapInput) :
    ((Map.render s input).1.result = none → (Map.render s input).1.writes = none)
    ∧ ((Map.render s input).1.result ≠ none →
        (Map.render s input).1.writes
          = some (renderUniforms input.size input.coords input.zoom)) := by
  by_cases h : s.last_input = some input
  · simp [Map.render, h]
  · by_cases h2 : s.texture_size = (max input.size.1 1, max input.size.2 1) <;>
      simp [Map.render, h, h2]

/-- Witness for the amended C7 on a freshly constructed map. -/
theorem C7_uniform_writes_every_frame_witness :
    (Map.render (Map.new (4, 5)) input0).1.writes
      = some (renderUniforms input0.size input0.coords input0.zoom) := by
  have h := C7_uniform_writes_every_frame (Map.new (4, 5)) input0
  exact h.2 (by decide)

/-- Claim C9: when `Map.render` returns a frame, the cached input
afterwards equals `some input` and the stored texture size equals the
clamped input size `(max width 1, max height 1)`, matching the
dimensions of the current color and depth textures; when it returns
the "unchanged" marker the whole state — cached input, textures and
texture size — is left unmodified. -/
theorem C9_render_state_invariant (s : MapState) (input : MapInput)
    (hs : TexInv s) :
    ((Map.render s input).1.result ≠ none →
      (Map.render s input).2.last_input = some input
      ∧ (Map.render s input).2.texture_size
          = (max input.size.1 1, max input.size.2 1)
      ∧ (Map.render s input).2.texture
          = ⟨max input.size.1 1, max input.size.2 1⟩
      ∧ (Map.render s input).2.depth_texture
          = ⟨max input.size.1 1, max input.size.2 1⟩
      ∧ TexInv (Map.render s input).2)
    ∧ ((Map.render s input).1.result = none → (Map.render s input).2 = s) := by
  obtain ⟨ht, hd⟩ := hs
  by_cases h : s.last_input = some input
  · simp [Map.render, h]
  · by_cases h2 : s.texture_size = (max input.size.1 1, max input.size.2 1)
    · have hmax1 : max (max input.size.1 1) 1 = max input.size.1 1 :=
        Nat.max_eq_left (Nat.le_max_right _ _)
      have hmax2 : max (max input.size.2 1) 1 = max input.size.2 1 :=
        Nat.max_eq_left (Nat.le_max_right _ _)
      rw [h2] at ht hd
      rw [hmax1, hmax2] at ht hd
      simp [Map.render, h, h2, TexInv, ht, hd, hmax1, hmax2]
    · simp [Map.render, h, h2, TexInv, Map.create_textures,
        Nat.max_eq_left (Nat.le_max_right _ _)]

/-- Witness for C9 on a freshly constructed 4×5 map rendering
`input0`. -/
theorem C9_render_state_invariant_witness :
    (Map.render (Map.new (4, 5)) input0).2.last_input = some input0
    ∧ (Map.render (Map.new (4, 5)) input0).2.texture_size = (4, 5)
    ∧ (Map.render (Map.new (4, 5)) input0).2.texture = ⟨4, 5⟩ := by
  have h := C9_render_state_invariant (Map.new (4, 5)) input0 (by constructor <;> decide)
  have h1 := h.1 (by decide)
  exact ⟨h1.1, h1.2.1, h1.2.2.1⟩

/-- Counterexample to claim C8: a 5-byte land-position blob, whose
length is not a whole multiple of the 12-byte (`[f32; 3]`) element
size, makes geometry loading abort by panic; no `AssetError` value is
returned to the caller (`Map::new` returns `Self`, not a `Result`). -/
theorem C8_counterexample :
    loadGeometry [0, 0, 0, 0, 0] [] [] = LoadResult.panicked := by
  rfl

/-- Amended claim C8: for every embedded geometry blob whose byte
length is not a whole multiple of the expected element stride
(12 bytes for `[f32; 3]` positions, 4 bytes for `u32` indices),
renderer construction aborts the process by panic
(`bytemuck::cast_slice` panics) rather than returning an `AssetError`
to the caller. -/
theorem C8_length_mismatch_panics (landB idxB contourB : List ℕ)
    (h : landB.length % 12 ≠ 0 ∨ idxB.length % 4 ≠ 0 ∨ contourB.length % 4 ≠ 0) :
    loadGeometry landB idxB contourB = LoadResult.panicked := by
  by_cases h1 : landB.length % 12 = 0
  · by_cases h2 : idxB.length % 4 = 0
    · by_cases h3 : contourB.length % 4 = 0
      · rcases h with h | h | h <;> exact absurd (by assumption) h
      · simp [loadGeometry, cast_slice, h1, h2, h3]
    · simp [loadGeometry, cast_slice, h1, h2]
  · simp [loadGeometry, cast_slice, h1]

/-- Witness for the amended C8: a single-byte land-index blob
(1 is not a multiple of 4) aborts the load by panic. -/
theorem C8_length_mismatch_panics_witness :
    loadGeometry [] [7] [] = LoadResult.panicked :=
  C8_length_mismatch_panics [] [7] [] (by decide)

/-- Claim C2: repacking a readback buffer of `stride * height` bytes
with aligned row stride `stride ≥ width * 4` yields a tightly packed
pixel buffer of exactly `width * height * 4` bytes with no row
padding: each output row `y < height` — the bytes at offsets
`[y * width * 4, (y+1) * width * 4)` — is byte-for-byte the
`width * 4` content bytes of readback row `y`, found at offsets
`[y * stride, y * stride + width * 4)`, the remaining
`stride - width * 4` padding bytes of each readback row being
discarded. -/
theorem C2_repack_tightly_packed (readback : List ℕ) (width height stride : ℕ)
    (hstride : width * 4 ≤ stride)
    (hlen : readback.length = stride * height) :
    (repackRows readback width height stride).length = width * height * 4
    ∧ ∀ y, y < height →
        ((repackRows readback width height stride).drop (y * (width * 4))).take (width * 4)
          = (readback.drop (y * stride)).take (width * 4) := by
  have hrow : ∀ y, y < height →
      ((readback.drop (y * stride)).take (width * 4)).length = width * 4 := by
    intro y hy
    have h3 : (y + 1) * stride ≤ height * stride := Nat.mul_le_mul_right stride hy
    have h4 : y * stride + stride ≤ stride * height := by
      calc y * stride + stride = (y + 1) * stride := by ring
        _ ≤ height * stride := h3
        _ = stride * height := Nat.mul_comm _ _
    rw [List.length_take, List.length_drop, hlen]
    generalize hA : stride * height = A at h4 ⊢
    generalize hB : y * stride = B at h4 ⊢
    omega
  constructor
  · rw [repackRows, flatMap_range_length (width * 4) height _ hrow]
    ring
  · intro y hy
    rw [repackRows]
    exact flatMap_range_chunk (width * 4) height _ hrow y hy

/-- Witness for C2 on a concrete 1×2 image with row stride 8: the
readback rows are `[1,2,3,4]` and `[5,6,7,8]`, each followed by four
padding bytes, and the repacked buffer is the 8 content bytes. -/
theorem C2_repack_tightly_packed_witness :
    (repackRows [1, 2, 3, 4, 9, 9, 9, 9, 5, 6, 7, 8, 9, 9, 9, 9] 1 2 8).length
      = 1 * 2 * 4
    ∧ ((repackRows [1, 2, 3, 4, 9, 9, 9, 9, 5, 6, 7, 8, 9, 9, 9, 9] 1 2 8).drop
          (1 * (1 * 4))).take (1 * 4)
        = (([1, 2, 3, 4, 9, 9, 9, 9, 5, 6, 7, 8, 9, 9, 9, 9].drop (1 * 8)).take (1 * 4))
    ∧ repackRows [1, 2, 3, 4, 9, 9, 9, 9, 5, 6, 7, 8, 9, 9, 9, 9] 1 2 8
        = [1, 2, 3, 4, 5, 6, 7, 8] := by
  have h := C2_repack_tightly_packed
    [1, 2, 3, 4, 9, 9, 9, 9, 5, 6, 7, 8, 9, 9, 9, 9] 1 2 8 (by decide) (by decide)
  exact ⟨h.1, h.2 1 (by decide), by decide⟩

/-- Claim C4: for every zoom `Z` and coordinate `(latitude, longitude)`
in degrees, `model_view Z coord` is the matrix product
`translate (0, offset_y, -Z) * rotate_x phi * rotate_y (-theta)` with
`phi = latitude * pi/180`, `theta = longitude * pi/180` and
`offset_y = 0`; `model_view Z (0,0)` is the pure translation by
`(0, 0, -Z)` with no rotation component; and the coordinate conversion
maps `(0,0)` to `(theta, phi) = (0,0)`, `(90,0)` to `phi = pi/2`, and
`(0,180)` to `theta = pi`. -/
theorem C4_model_view_decomposition (Z lat lon : ℝ) :
    model_view Z (lat, lon)
      = translateMat 0 0 (-Z) * rotXMat (lat * (Real.pi / 180))
          * rotYMat (-(lon * (Real.pi / 180)))
    ∧ model_view Z (0, 0) = translateMat 0 0 (-Z)
    ∧ coordinates_to_theta_phi (0, 0) = (0, 0)
    ∧ (coordinates_to_theta_phi (90, 0)).2 = Real.pi / 2
    ∧ (coordinates_to_theta_phi (0, 180)).1 = Real.pi := by
  refine ⟨?_, ?_, ?_, ?_, ?_⟩
  · simp [model_view, coordinates_to_theta_phi]
    norm_num
  · simp [model_view, coordinates_to_theta_phi, rotXMat_zero, rotYMat_zero]
    norm_num
  · simp [coordinates_to_theta_phi]
  · simp [coordinates_to_theta_phi]
    ring
  · simp [coordinates_to_theta_phi]
    ring

/-- Claim C5: for all positive `w1, h1, w2, h2` with `w1/h1 = w2/h2`,
the perspective projection matrices agree:
`projection_matrix w1 h1 = projection_matrix w2 h2` — the result
depends only on the aspect ratio, the field of view being fixed at 70
degrees, the near plane at 0.1 and the far plane at 10.0
(right-handed). -/
theorem C5_projection_aspect_ratio_only (w1 h1 w2 h2 : ℝ)
    (_hw1 : 0 < w1) (_hh1 : 0 < h1) (_hw2 : 0 < w2) (_hh2 : 0 < h2)
    (hr : w1 / h1 = w2 / h2) :
    projection_matrix w1 h1 = projection_matrix w2 h2
    ∧ projection_matrix w1 h1
      = perspectiveRh ((70.0 / 180.0) * Real.pi) (w1 / h1) 0.1 10.0 := by
  constructor
  · simp only [projection_matrix]
    rw [hr]
  · rfl

/-- Witness for C5 at the concrete viewports 640×480 and 320×240. -/
theorem C5_projection_aspect_ratio_only_witness :
    projection_matrix 640 480 = projection_matrix 320 240
    ∧ projection_matrix 640 480
      = perspectiveRh ((70.0 / 180.0) * Real.pi) ((640 : ℝ) / 480) 0.1 10.0 :=
  C5_projection_aspect_ratio_only 640 480 320 240
    (by norm_num) (by norm_num) (by norm_num) (by norm_num) (by norm_num)

/-- Claim C6: in the uniforms computed for every rendered frame, the
land mesh's model-view matrix equals the contour mesh's model-view
matrix composed with a uniform scale of 0.9999 toward the origin, and
this scaling is the only difference between the two model-view
matrices: entrywise, the three spatial columns are multiplied by
0.9999 and the fourth (translation) column is unchanged. -/
theorem C6_land_model_view_scaled (size : ℕ × ℕ) (coords : ℚ × ℚ) (zoom : ℚ) :
    (renderUniforms size coords zoom).1.model_view
      = (renderUniforms size coords zoom).2.model_view * scaleMat 0.9999
    ∧ ∀ i j : Fin 4,
        (renderUniforms size coords zoom).1.model_view i j
          = (if j = 3 then 1 else 0.9999)
              * (renderUniforms size coords zoom).2.model_view i j := by
  have h1 : (renderUniforms size coords zoom).1.model_view
      = model_view (zoom : ℝ) ((coords.1 : ℝ), (coords.2 : ℝ)) * scaleMat 0.9999 := rfl
  have h2 : (renderUniforms size coords zoom).2.model_view
      = model_view (zoom : ℝ) ((coords.1 : ℝ), (coords.2 : ℝ)) := rfl
  refine ⟨rfl, fun i j => ?_⟩
  rw [h1, h2, scaleMat, Matrix.mul_diagonal]
  fin_cases j <;> simp <;> ring

/-- Claim C10: the contour mesh's color constant is exactly the ocean
background color (`CONTOUR_COLOR = OCEAN_COLOR`) and is distinct from
the land color, and the uniforms of every rendered frame give the
contour mesh that color, so the coastline contour is not visually
distinct from the ocean background. -/
theorem C10_contour_color_is_ocean (size : ℕ × ℕ) (coords : ℚ × ℚ) (zoom : ℚ) :
    CONTOUR_COLOR = OCEAN_COLOR
    ∧ CONTOUR_COLOR ≠ LAND_COLOR
    ∧ (renderUniforms size coords zoom).2.color = CONTOUR_COLOR
    ∧ (renderUniforms size coords zoom).1.color = LAND_COLOR := by
  refine ⟨rfl, ?_, rfl, rfl⟩
  intro h
  have h0 := congrFun h 0
  simp [CONTOUR_COLOR, OCEAN_COLOR, LAND_COLOR] at h0
  norm_num at h0

end MullvadMap
